import Mathlib

/-!
Shallow embedding of `yazi-fs/src/cha.rs`: the `ChaKind` bit-set, the `Cha`
characteristics record, its construction paths (`From<Metadata>`,
`From<FileType>`, `Cha::new`, `Cha::new_nofollow`, `Cha::dummy`), its
predicates, and the staleness comparison `Cha::hits`.

The source is compiled for two platforms via `cfg(unix)` / `cfg(windows)`;
we model the platform as an explicit parameter.  Fields that exist only
under `cfg(unix)` (`ctime`, `mode`, `dev`, `uid`, `gid`, `nlink`) are kept
in the record for both platforms but are zero-initialized and ignored on
the windows side, exactly as the `unix_either!` / `win_either!` macros
ignore them there.

Machine integers are modelled as `Nat` (for the unsigned `u64`/`u32`/`u8`
values) and `Int` (for the signed `i64` values returned by `ctime()` /
`ctime_nsec()`), with the `as u64` / `as u32` casts made explicit as
reduction modulo `2^64` / `2^32`.  `SystemTime` values are modelled as
`Int` nanoseconds relative to the Unix epoch.  A Rust panic is modelled as
`none` of an `Option` result.
-/

namespace YaziFs

/-- The two compilation targets distinguished by `cfg(unix)` / `cfg(windows)`. -/
inductive Platform
| posix
| windows
deriving DecidableEq, Repr, Fintype

/-- The `unix_either!(a, b)` macro: `a` under `cfg(unix)`, `b` otherwise. -/
def unixEither {α : Type} (p : Platform) (a b : α) : α :=
match p with
| .posix => a
| .windows => b

/-- The `win_either!(a, b)` macro: `a` under `cfg(windows)`, `b` otherwise. -/
def winEither {α : Type} (p : Platform) (a b : α) : α :=
match p with
| .posix => b
| .windows => a

namespace ChaKind

/-- `ChaKind::DIR = 0b00000001`. -/
def DIR : Nat := 1

/-- `ChaKind::HIDDEN = 0b00000010`. -/
def HIDDEN : Nat := 2

/-- `ChaKind::LINK = 0b00000100`. -/
def LINK : Nat := 4

/-- `ChaKind::ORPHAN = 0b00001000`. -/
def ORPHAN : Nat := 8

/-- `ChaKind::DUMMY = 0b00010000`. -/
def DUMMY : Nat := 16

/-- `ChaKind::SYSTEM = 0b00100000` (only present under `cfg(windows)`). -/
def SYSTEM : Nat := 32

/-- `ChaKind::empty()` from the `bitflags!` expansion. -/
def empty : Nat := 0

/-- `bitflags` membership test: `self.bits() & other.bits() == other.bits()`. -/
def contains (k f : Nat) : Bool := k &&& f == f

end ChaKind

/-- `libc::S_IFMT` (0o170000). -/
def S_IFMT : Nat := 61440

/-- `libc::S_IFDIR` (0o040000). -/
def S_IFDIR : Nat := 16384

/-- `libc::S_IFLNK` (0o120000). -/
def S_IFLNK : Nat := 40960

/-- `libc::S_IFBLK` (0o060000). -/
def S_IFBLK : Nat := 24576

/-- `libc::S_IFCHR` (0o020000). -/
def S_IFCHR : Nat := 8192

/-- `libc::S_IFIFO` (0o010000). -/
def S_IFIFO : Nat := 4096

/-- `libc::S_IFSOCK` (0o140000). -/
def S_IFSOCK : Nat := 49152

/-- `libc::S_IXUSR` (0o100). -/
def S_IXUSR : Nat := 64

/-- `libc::S_ISVTX` (0o1000). -/
def S_ISVTX : Nat := 512

/-- `windows_sys FILE_ATTRIBUTE_HIDDEN` (0x2). -/
def FILE_ATTRIBUTE_HIDDEN : Nat := 2

/-- `windows_sys FILE_ATTRIBUTE_SYSTEM` (0x4). -/
def FILE_ATTRIBUTE_SYSTEM : Nat := 4

/-- `i64::MAX`, the largest seconds value a Unix `SystemTime` can carry. -/
def i64Max : Nat := 2 ^ 63 - 1

/-- Nanoseconds per second, `Duration`'s `NANOS_PER_SEC`. -/
def nanosPerSec : Nat := 1000000000

/-- The Rust `as u64` cast of an `i64`: two's complement reinterpretation,
i.e. reduction modulo `2^64`. -/
def u64Cast (x : Int) : Nat := (x % (2 : Int) ^ 64).toNat

/-- The Rust `as u32` cast of an `i64`: truncation to the low 32 bits,
i.e. reduction modulo `2^32`. -/
def u32Cast (x : Int) : Nat := (x % (2 : Int) ^ 32).toNat

/-- `std::time::Duration`: whole seconds plus a sub-second nanosecond part. -/
structure Duration where
  secs : Nat
  nanos : Nat
deriving DecidableEq, Repr

/-- `Duration::new(secs, nanos)`: the nanosecond carry `nanos / NANOS_PER_SEC`
is added to `secs` with `checked_add(..).expect(..)` — the constructor
panics (modelled as `none`) when that addition overflows `u64`. -/
def Duration.new (secs nanos : Nat) : Option Duration :=
if secs + nanos / nanosPerSec < 2 ^ 64 then
  some ⟨secs + nanos / nanosPerSec, nanos % nanosPerSec⟩
else
  none

/-- `UNIX_EPOCH.checked_add(d)` on the Unix `Timespec` representation: the
result exists iff the duration's seconds fit in `i64`; the resulting
`SystemTime` is modelled as `Int` nanoseconds since the epoch. -/
def epochCheckedAdd (d : Duration) : Option Int :=
if d.secs ≤ i64Max then some ((d.secs : Int) * (nanosPerSec : Int) + (d.nanos : Int)) else none

/-- The slice of `std::fs::Metadata` the source reads: the `is_dir` /
`is_symlink` probes, `len`, the three fallible timestamp accessors
(`Result` modelled as `Option`), the raw `MetadataExt` fields, and the
windows `file_attributes` bits. -/
structure Metadata where
  isDir : Bool
  isSymlink : Bool
  len : Nat
  accessed : Option Int
  created : Option Int
  modified : Option Int
  ctime : Int
  ctimeNsec : Int
  mode : Nat
  dev : Nat
  uid : Nat
  gid : Nat
  nlink : Nat
  fileAttributes : Nat
deriving DecidableEq, Repr

/-- The slice of `std::fs::FileType` the source reads: the six type probes
(with the `FileTypeExt` ones meaningful on the POSIX platform). -/
structure FileType where
  isDir : Bool
  isSymlink : Bool
  isBlockDevice : Bool
  isCharDevice : Bool
  isFifo : Bool
  isSocket : Bool
deriving DecidableEq, Repr

/-- The `Cha` record.  `ctime`, `mode`, `dev`, `uid`, `gid`, `nlink` exist in
the source only under `cfg(unix)`; here they are always present and held at
their zero value on the windows side. -/
structure Cha where
  kind : Nat
  len : Nat
  atime : Option Int
  btime : Option Int
  ctime : Option Int
  mtime : Option Int
  mode : Nat
  dev : Nat
  uid : Nat
  gid : Nat
  nlink : Nat
deriving DecidableEq, Repr

/-- `Cha::default()`: empty kind, zero length, absent timestamps, zero ids. -/
def Cha.default : Cha :=
⟨ChaKind.empty, 0, none, none, none, none, 0, 0, 0, 0, 0⟩

/-- The kind classification block of `impl From<Metadata> for Cha`:
`DIR` if the metadata probes as a directory, else `LINK` if it probes as a
symlink, else empty. -/
def metaKind (m : Metadata) : Nat :=
if m.isDir then ChaKind.DIR else if m.isSymlink then ChaKind.LINK else ChaKind.empty

/-- `impl From<Metadata> for Cha`.  The result is an `Option` because the
`cfg(unix)` `ctime` initializer calls `Duration::new`, which can panic
(modelled as `none`) when the nanosecond carry overflows the `u64` seconds. -/
def Cha.fromMetadata (p : Platform) (m : Metadata) : Option Cha :=
match p with
| .posix =>
  (Duration.new (u64Cast m.ctime) (u32Cast m.ctimeNsec)).map fun d =>
    { kind := metaKind m
      len := m.len
      atime := m.accessed
      btime := m.created
      ctime := epochCheckedAdd d
      mtime := m.modified
      mode := m.mode
      dev := m.dev
      uid := m.uid
      gid := m.gid
      nlink := m.nlink }
| .windows =>
  some
    { kind := metaKind m
      len := m.len
      atime := m.accessed
      btime := m.created
      ctime := none
      mtime := m.modified
      mode := 0
      dev := 0
      uid := 0
      gid := 0
      nlink := 0 }

/-- `impl From<FileType> for Cha`: sets `DUMMY` unconditionally, classifies
`DIR`/`LINK` by an else-if chain, and on the POSIX platform synthesizes the
raw `S_IF*` type bits into `mode`; every other field keeps its default. -/
def Cha.fromFileType (p : Platform) (t : FileType) : Cha :=
match p with
| .posix =>
  let km : Nat × Nat :=
    if t.isDir then (ChaKind.DUMMY ||| ChaKind.DIR, S_IFDIR)
    else if t.isSymlink then (ChaKind.DUMMY ||| ChaKind.LINK, S_IFLNK)
    else if t.isBlockDevice then (ChaKind.DUMMY, S_IFBLK)
    else if t.isCharDevice then (ChaKind.DUMMY, S_IFCHR)
    else if t.isFifo then (ChaKind.DUMMY, S_IFIFO)
    else if t.isSocket then (ChaKind.DUMMY, S_IFSOCK)
    else (ChaKind.DUMMY, 0)
  { Cha.default with kind := km.1, mode := km.2 }
| .windows =>
  let kind : Nat :=
    if t.isDir then ChaKind.DUMMY ||| ChaKind.DIR
    else if t.isSymlink then ChaKind.DUMMY ||| ChaKind.LINK
    else ChaKind.DUMMY
  { Cha.default with kind := kind }

/-- The kind bits `Cha::new_nofollow` ORs in after construction: on the POSIX
platform `HIDDEN` when the hidden-name classifier accepts the path, on the
windows platform `HIDDEN` / `SYSTEM` from the metadata's attribute bits.
The POSIX classifier `Urn::is_hidden` lives in another crate of the
repository and is abstracted here as the Boolean `pathHidden`. -/
def hiddenAttached (p : Platform) (pathHidden : Bool) (m : Metadata) : Nat :=
match p with
| .posix => if pathHidden then ChaKind.HIDDEN else ChaKind.empty
| .windows =>
  (if m.fileAttributes &&& FILE_ATTRIBUTE_HIDDEN != 0 then ChaKind.HIDDEN else ChaKind.empty) |||
  (if m.fileAttributes &&& FILE_ATTRIBUTE_SYSTEM != 0 then ChaKind.SYSTEM else ChaKind.empty)

/-- `Cha::new_nofollow(path, meta)`: build from the metadata, then OR in the
hidden/system classification bits. -/
def Cha.new_nofollow (p : Platform) (pathHidden : Bool) (meta : Metadata) : Option Cha :=
(Cha.fromMetadata p meta).map fun c => { c with kind := c.kind ||| hiddenAttached p pathHidden meta }

/-- `Cha::new(path, meta)`: if the metadata is a symlink, note `LINK` and
replace the metadata by the result of the target fetch when it succeeded
(`tokio::fs::metadata(path).await.unwrap_or(meta)`, the fetch outcome
modelled by the `fetched` parameter); if the resulting metadata is still a
symlink, note `ORPHAN`; then build via `new_nofollow` and OR the noted bits
into the result's kind. -/
def Cha.new (p : Platform) (pathHidden : Bool) (fetched : Option Metadata) (meta : Metadata) :
    Option Cha :=
let meta2 : Metadata := if meta.isSymlink then fetched.getD meta else meta
let attached : Nat :=
  (if meta.isSymlink then ChaKind.LINK else ChaKind.empty) |||
  (if meta2.isSymlink then ChaKind.ORPHAN else ChaKind.empty)
(Cha.new_nofollow p pathHidden meta2).map fun c => { c with kind := c.kind ||| attached }

/-- `Cha::dummy()`. -/
def Cha.dummy : Cha := { Cha.default with kind := ChaKind.DUMMY }

/-- `Cha::hits`: the staleness comparison.  The `ctime` and `mode` checks are
wrapped in `unix_either!(.., true)`. -/
def Cha.hits (p : Platform) (self c : Cha) : Bool :=
self.len == c.len
  && self.mtime == c.mtime
  && unixEither p (self.ctime == c.ctime) true
  && self.btime == c.btime
  && self.kind == c.kind
  && unixEither p (self.mode == c.mode) true

/-- `Cha::is_dir`. -/
def Cha.is_dir (c : Cha) : Bool := ChaKind.contains c.kind ChaKind.DIR

/-- `Cha::is_hidden`: `HIDDEN`, or — via `win_either!` — `SYSTEM` on windows. -/
def Cha.is_hidden (p : Platform) (c : Cha) : Bool :=
ChaKind.contains c.kind ChaKind.HIDDEN || winEither p (ChaKind.contains c.kind ChaKind.SYSTEM) false

/-- `Cha::is_link`. -/
def Cha.is_link (c : Cha) : Bool := ChaKind.contains c.kind ChaKind.LINK

/-- `Cha::is_orphan`. -/
def Cha.is_orphan (c : Cha) : Bool := ChaKind.contains c.kind ChaKind.ORPHAN

/-- `Cha::is_dummy`. -/
def Cha.is_dummy (c : Cha) : Bool := ChaKind.contains c.kind ChaKind.DUMMY

/-- `Cha::is_block`. -/
def Cha.is_block (p : Platform) (c : Cha) : Bool :=
unixEither p (c.mode &&& S_IFMT == S_IFBLK) false

/-- `Cha::is_char`. -/
def Cha.is_char (p : Platform) (c : Cha) : Bool :=
unixEither p (c.mode &&& S_IFMT == S_IFCHR) false

/-- `Cha::is_fifo`. -/
def Cha.is_fifo (p : Platform) (c : Cha) : Bool :=
unixEither p (c.mode &&& S_IFMT == S_IFIFO) false

/-- `Cha::is_sock`. -/
def Cha.is_sock (p : Platform) (c : Cha) : Bool :=
unixEither p (c.mode &&& S_IFMT == S_IFSOCK) false

/-- `Cha::is_exec`. -/
def Cha.is_exec (p : Platform) (c : Cha) : Bool :=
unixEither p (c.mode &&& S_IXUSR != 0) false

/-- `Cha::is_sticky`. -/
def Cha.is_sticky (p : Platform) (c : Cha) : Bool :=
unixEither p (c.mode &&& S_ISVTX != 0) false

/-- Sample record: a directory entry with POSIX metadata filled in. -/
def chaA : Cha := ⟨ChaKind.DIR, 4096, some 10, some 20, some 30, some 40, 16877, 5, 1000, 1000, 2⟩

/-- Sample record: like `chaA` but with a different access time, device id,
owner, group and link count. -/
def chaB : Cha := ⟨ChaKind.DIR, 4096, some 11, some 20, some 30, some 40, 16877, 6, 0, 0, 9⟩

/-- Sample record: only the `SYSTEM` kind bit set. -/
def chaSys : Cha := { Cha.default with kind := ChaKind.SYSTEM }

/-- Sample metadata describing a symlink. -/
def mdLink : Metadata :=
⟨false, true, 7, some 1, some 2, some 3, 4, 5, 41471, 1, 1000, 1000, 1, 0⟩

/-- The record `From<Metadata>` produces from `mdLink` on windows. -/
def cwLink : Cha := ⟨ChaKind.LINK, 7, some 1, some 2, none, some 3, 0, 0, 0, 0, 0⟩

/-- The record `Cha::new_nofollow` produces from `mdLink` on POSIX with a
non-hidden path. -/
def cnfLink : Cha :=
⟨ChaKind.LINK, 7, some 1, some 2, some 4000000005, some 3, 41471, 1, 1000, 1000, 1⟩

/-- Membership of a single-bit flag is the corresponding `testBit`. -/
theorem contains_pow (k i : Nat) : ChaKind.contains k (2 ^ i) = k.testBit i := by
  unfold ChaKind.contains
  rw [Nat.and_two_pow]
  cases h : k.testBit i
  · simp only [Bool.toNat_false, Nat.zero_mul, beq_eq_false_iff_ne, ne_eq]
    exact fun hc => absurd hc.symm (Nat.two_pow_pos i).ne'
  · simp

/-- Membership of a single-bit flag distributes over bit-set union. -/
theorem contains_lor (a b i : Nat) :
    ChaKind.contains (a ||| b) (2 ^ i) =
      (ChaKind.contains a (2 ^ i) || ChaKind.contains b (2 ^ i)) := by
  simp [contains_pow, Nat.testBit_lor]

/-- Unfolding of `Cha.hits` into propositional field equalities. -/
theorem hits_true_iff (p : Platform) (a b : Cha) :
    Cha.hits p a b = true ↔
      (a.len = b.len ∧ a.mtime = b.mtime ∧ a.btime = b.btime ∧ a.kind = b.kind ∧
        (p = Platform.posix → a.ctime = b.ctime ∧ a.mode = b.mode)) := by
  cases p <;> simp [Cha.hits, unixEither] <;> tauto

/-- Claim C1: `hits(a, b)` holds iff `a` and `b` agree on `len`, `mtime`,
`btime` and the kind bit-set, plus — on the POSIX platform only — `ctime`
and `mode`; changing only `dev`, `uid`, `gid`, `nlink` or `atime` never
changes the verdict, while a disagreement on `mtime`, kind, `len` or
`btime` always forces `hits` to be false. -/
theorem hits_characterization (p : Platform) (a b : Cha) :
    (Cha.hits p a b = true ↔
      (a.len = b.len ∧ a.mtime = b.mtime ∧ a.btime = b.btime ∧ a.kind = b.kind ∧
        (p = Platform.posix → a.ctime = b.ctime ∧ a.mode = b.mode))) ∧
    (∀ d u g n at2,
      Cha.hits p a { b with dev := d, uid := u, gid := g, nlink := n, atime := at2 } =
        Cha.hits p a b) ∧
    ((a.mtime ≠ b.mtime ∨ a.kind ≠ b.kind ∨ a.len ≠ b.len ∨ a.btime ≠ b.btime) →
      Cha.hits p a b = false) := by
  refine ⟨hits_true_iff p a b, ?_, ?_⟩
  · intro d u g n at2
    rfl
  · intro hd
    cases hh : Cha.hits p a b
    · rfl
    · rcases (hits_true_iff p a b).mp hh with ⟨h1, h2, h3, h4, _⟩
      rcases hd with h | h | h | h
      exacts [absurd h2 h, absurd h4 h, absurd h1 h, absurd h3 h]

/-- Claim C1 witness: two concrete records that differ only in access time,
device id, owner, group and link count satisfy `hits`. -/
theorem hits_characterization_witness :
    Cha.hits Platform.posix chaA chaB = true :=
  ((hits_characterization Platform.posix chaA chaB).1).mpr (by decide)

/-- Claim C10: `hits` is reflexive and symmetric. -/
theorem hits_reflexive_and_symmetric (p : Platform) (a b : Cha) :
    Cha.hits p a a = true ∧ Cha.hits p a b = Cha.hits p b a := by
  constructor
  · exact (hits_true_iff p a a).mpr ⟨rfl, rfl, rfl, rfl, fun _ => ⟨rfl, rfl⟩⟩
  · rw [Bool.eq_iff_iff, hits_true_iff, hits_true_iff]
    constructor <;> rintro ⟨h1, h2, h3, h4, h5⟩ <;>
      exact ⟨h1.symm, h2.symm, h3.symm, h4.symm, fun hp => ⟨(h5 hp).1.symm, (h5 hp).2.symm⟩⟩

/-- Claim C7: on the windows platform `is_hidden` is true whenever `SYSTEM`
is set, and on the POSIX platform `is_hidden` coincides with the `HIDDEN`
bit. -/
theorem is_hidden_platform (c : Cha) :
    (ChaKind.contains c.kind ChaKind.SYSTEM = true → Cha.is_hidden Platform.windows c = true) ∧
    Cha.is_hidden Platform.posix c = ChaKind.contains c.kind ChaKind.HIDDEN := by
  constructor
  · intro h
    simp [Cha.is_hidden, winEither, h]
  · simp [Cha.is_hidden, winEither]

/-- Claim C7 witness: a record with only `SYSTEM` set is hidden on windows. -/
theorem is_hidden_platform_witness : Cha.is_hidden Platform.windows chaSys = true :=
  (is_hidden_platform chaSys).1 (by decide)

/-- Claim C9: `dummy()` satisfies `is_dummy`, every other predicate is false
on it, and all its numeric and timestamp fields are zero/absent. -/
theorem dummy_record_properties :
    Cha.dummy.is_dummy = true ∧
    Cha.dummy.is_dir = false ∧ Cha.dummy.is_link = false ∧ Cha.dummy.is_orphan = false ∧
    (∀ p, Cha.is_hidden p Cha.dummy = false ∧ Cha.is_block p Cha.dummy = false ∧
      Cha.is_char p Cha.dummy = false ∧ Cha.is_fifo p Cha.dummy = false ∧
      Cha.is_sock p Cha.dummy = false ∧ Cha.is_exec p Cha.dummy = false ∧
      Cha.is_sticky p Cha.dummy = false) ∧
    Cha.dummy.len = 0 ∧ Cha.dummy.atime = none ∧ Cha.dummy.btime = none ∧
    Cha.dummy.ctime = none ∧ Cha.dummy.mtime = none ∧ Cha.dummy.mode = 0 ∧
    Cha.dummy.dev = 0 ∧ Cha.dummy.uid = 0 ∧ Cha.dummy.gid = 0 ∧ Cha.dummy.nlink = 0 := by
  decide

/-- Every field of a record produced by `From<Metadata>`, except `ctime`,
expressed from the input metadata. -/
theorem fromMetadata_some_fields (p : Platform) (m : Metadata) (c : Cha)
    (h : Cha.fromMetadata p m = some c) :
    c.kind = metaKind m ∧ c.len = m.len ∧ c.atime = m.accessed ∧ c.btime = m.created ∧
    c.mtime = m.modified ∧ c.mode = unixEither p m.mode 0 ∧ c.dev = unixEither p m.dev 0 ∧
    c.uid = unixEither p m.uid 0 ∧ c.gid = unixEither p m.gid 0 ∧
    c.nlink = unixEither p m.nlink 0 := by
  cases p
  · simp only [Cha.fromMetadata, Option.map_eq_some'] at h
    obtain ⟨d, hd, rfl⟩ := h
    exact ⟨rfl, rfl, rfl, rfl, rfl, rfl, rfl, rfl, rfl, rfl⟩
  · simp only [Cha.fromMetadata, Option.some.injEq] at h
    subst h
    exact ⟨rfl, rfl, rfl, rfl, rfl, rfl, rfl, rfl, rfl, rfl⟩

/-- `metaKind` never carries the `HIDDEN` bit. -/
theorem metaKind_testBit_one (m : Metadata) : (metaKind m).testBit 1 = false := by
  unfold metaKind
  cases hd : m.isDir <;> cases hs : m.isSymlink <;> simp [hd, hs] <;> decide

/-- `metaKind` never carries the `ORPHAN` bit. -/
theorem metaKind_testBit_three (m : Metadata) : (metaKind m).testBit 3 = false := by
  unfold metaKind
  cases hd : m.isDir <;> cases hs : m.isSymlink <;> simp [hd, hs] <;> decide

/-- `metaKind` never carries the `DUMMY` bit. -/
theorem metaKind_testBit_four (m : Metadata) : (metaKind m).testBit 4 = false := by
  unfold metaKind
  cases hd : m.isDir <;> cases hs : m.isSymlink <;> simp [hd, hs] <;> decide

/-- The hidden/system classification bits never include `LINK`. -/
theorem hiddenAttached_testBit_two (p : Platform) (ph : Bool) (m : Metadata) :
    (hiddenAttached p ph m).testBit 2 = false := by
  cases p
  · show (if ph then ChaKind.HIDDEN else ChaKind.empty).testBit 2 = false
    cases ph <;> decide
  · show ((if m.fileAttributes &&& FILE_ATTRIBUTE_HIDDEN != 0 then ChaKind.HIDDEN
      else ChaKind.empty) |||
      (if m.fileAttributes &&& FILE_ATTRIBUTE_SYSTEM != 0 then ChaKind.SYSTEM
      else ChaKind.empty)).testBit 2 = false
    cases hA : m.fileAttributes &&& FILE_ATTRIBUTE_HIDDEN != 0 <;>
      cases hS : m.fileAttributes &&& FILE_ATTRIBUTE_SYSTEM != 0 <;>
      simp [hA, hS] <;> decide

/-- The hidden/system classification bits never include `ORPHAN`. -/
theorem hiddenAttached_testBit_three (p : Platform) (ph : Bool) (m : Metadata) :
    (hiddenAttached p ph m).testBit 3 = false := by
  cases p
  · show (if ph then ChaKind.HIDDEN else ChaKind.empty).testBit 3 = false
    cases ph <;> decide
  · show ((if m.fileAttributes &&& FILE_ATTRIBUTE_HIDDEN != 0 then ChaKind.HIDDEN
      else ChaKind.empty) |||
      (if m.fileAttributes &&& FILE_ATTRIBUTE_SYSTEM != 0 then ChaKind.SYSTEM
      else ChaKind.empty)).testBit 3 = false
    cases hA : m.fileAttributes &&& FILE_ATTRIBUTE_HIDDEN != 0 <;>
      cases hS : m.fileAttributes &&& FILE_ATTRIBUTE_SYSTEM != 0 <;>
      simp [hA, hS] <;> decide

/-- Claim C6: in `From<Metadata>`, `DIR` is set exactly on directory inputs,
`LINK` exactly on non-directory symlink inputs, the two bits are never both
set, and neither is set when the input is neither a directory nor a
symlink. -/
theorem fromMetadata_dir_link (p : Platform) (m : Metadata) (c : Cha)
    (h : Cha.fromMetadata p m = some c) :
    (m.isDir = true → c.is_dir = true ∧ c.is_link = false) ∧
    (m.isDir = false → m.isSymlink = true → c.is_dir = false ∧ c.is_link = true) ∧
    (m.isDir = false → m.isSymlink = false → c.is_dir = false ∧ c.is_link = false) ∧
    ¬(c.is_dir = true ∧ c.is_link = true) := by
  have hk := (fromMetadata_some_fields p m c h).1
  unfold Cha.is_dir Cha.is_link
  rw [hk]
  unfold metaKind
  cases hd : m.isDir <;> cases hs : m.isSymlink <;> simp only [hd, hs] <;> decide

/-- Claim C6 witness: a concrete symlink metadata input yields `LINK` and not
`DIR`. -/
theorem fromMetadata_dir_link_witness :
    Cha.fromMetadata Platform.windows mdLink = some cwLink ∧
    mdLink.isDir = false ∧ mdLink.isSymlink = true ∧
    cwLink.is_dir = false ∧ cwLink.is_link = true :=
  ⟨by decide, rfl, rfl,
    ((fromMetadata_dir_link Platform.windows mdLink cwLink (by decide)).2.1 rfl rfl).1,
    ((fromMetadata_dir_link Platform.windows mdLink cwLink (by decide)).2.1 rfl rfl).2⟩

/-- Every field of a record produced by `Cha::new_nofollow`, expressed from
the input metadata and the classification bits. -/
theorem new_nofollow_fields (p : Platform) (ph : Bool) (m : Metadata) (c : Cha)
    (h : Cha.new_nofollow p ph m = some c) :
    c.len = m.len ∧ c.atime = m.accessed ∧ c.btime = m.created ∧ c.mtime = m.modified ∧
    (Cha.fromMetadata p m).map Cha.ctime = some c.ctime ∧
    c.mode = unixEither p m.mode 0 ∧ c.dev = unixEither p m.dev 0 ∧
    c.uid = unixEither p m.uid 0 ∧ c.gid = unixEither p m.gid 0 ∧
    c.nlink = unixEither p m.nlink 0 ∧ c.kind = metaKind m ||| hiddenAttached p ph m := by
  simp only [Cha.new_nofollow, Option.map_eq_some'] at h
  obtain ⟨c1, hc1, rfl⟩ := h
  obtain ⟨hk, h2, h3, h4, h5, h6, h7, h8, h9, h10⟩ := fromMetadata_some_fields p m c1 hc1
  refine ⟨h2, h3, h4, h5, ?_, h6, h7, h8, h9, h10, by rw [hk]⟩
  rw [hc1]
  rfl

/-- The kind of a `Cha::new_nofollow` record never carries the `ORPHAN` bit. -/
theorem new_nofollow_kind_testBit_three (p : Platform) (ph : Bool) (m : Metadata) (c : Cha)
    (h : Cha.new_nofollow p ph m = some c) : c.kind.testBit 3 = false := by
  have hk := (new_nofollow_fields p ph m c h).2.2.2.2.2.2.2.2.2.2
  rw [hk, Nat.testBit_lor, metaKind_testBit_three, hiddenAttached_testBit_three]
  rfl

/-- Claim C8: `Cha::new_nofollow` never sets the `ORPHAN` bit. -/
theorem new_nofollow_no_orphan (p : Platform) (ph : Bool) (m : Metadata) (c : Cha)
    (h : Cha.new_nofollow p ph m = some c) : c.is_orphan = false := by
  show ChaKind.contains c.kind ChaKind.ORPHAN = false
  have ho : ChaKind.ORPHAN = 2 ^ 3 := rfl
  rw [ho, contains_pow, new_nofollow_kind_testBit_three p ph m c h]

/-- Claim C8 witness: non-following construction on concrete symlink metadata
yields a record without `ORPHAN`. -/
theorem new_nofollow_no_orphan_witness : cnfLink.is_orphan = false :=
  new_nofollow_no_orphan Platform.posix false mdLink cnfLink (by decide)

/-- Claim C2: following construction with a failed target fetch (`fetched =
none`) on symlink metadata is exactly non-following construction on the
link's own metadata with `LINK` and `ORPHAN` OR'd into the kind — the
fetch failure is not propagated, and every data field comes from the
link's own metadata. -/
theorem new_broken_symlink (p : Platform) (ph : Bool) (m : Metadata)
    (hm : m.isSymlink = true) :
    (Cha.new p ph none m =
      (Cha.new_nofollow p ph m).map fun c =>
        { c with kind := c.kind ||| (ChaKind.LINK ||| ChaKind.ORPHAN) }) ∧
    ∀ c, Cha.new p ph none m = some c → c.is_link = true ∧ c.is_orphan = true := by
  have heq : Cha.new p ph none m =
      (Cha.new_nofollow p ph m).map fun c =>
        { c with kind := c.kind ||| (ChaKind.LINK ||| ChaKind.ORPHAN) } := by
    simp [Cha.new, hm]
  refine ⟨heq, fun c hc => ?_⟩
  rw [heq, Option.map_eq_some'] at hc
  obtain ⟨c0, hc0, rfl⟩ := hc
  constructor
  · show ChaKind.contains (c0.kind ||| (ChaKind.LINK ||| ChaKind.ORPHAN)) ChaKind.LINK = true
    have h4 : ChaKind.LINK = 2 ^ 2 := rfl
    rw [h4, contains_lor]
    have hb : ChaKind.contains ((2 : Nat) ^ 2 ||| ChaKind.ORPHAN) (2 ^ 2) = true := by decide
    rw [hb, Bool.or_true]
  · show ChaKind.contains (c0.kind ||| (ChaKind.LINK ||| ChaKind.ORPHAN)) ChaKind.ORPHAN = true
    have h8 : ChaKind.ORPHAN = 2 ^ 3 := rfl
    rw [h8, contains_lor]
    have hb : ChaKind.contains (ChaKind.LINK ||| (2 : Nat) ^ 3) (2 ^ 3) = true := by decide
    rw [hb, Bool.or_true]

/-- The record following construction produces from `mdLink` when the target
fetch fails. -/
def cBroken : Cha :=
⟨ChaKind.LINK ||| ChaKind.ORPHAN, 7, some 1, some 2, some 4000000005, some 3, 41471, 1,
  1000, 1000, 1⟩

/-- Claim C2 witness: a concrete broken symlink yields `LINK` and `ORPHAN`. -/
theorem new_broken_symlink_witness : cBroken.is_link = true ∧ cBroken.is_orphan = true :=
  (new_broken_symlink Platform.posix false mdLink rfl).2 cBroken (by decide)

/-- Claim C3: following construction on symlink metadata whose target fetch
succeeds with non-symlink metadata `t` builds the record from `t`, so its
size and timestamps are the target's; `LINK` is set and `ORPHAN` is clear. -/
theorem new_live_symlink (p : Platform) (ph : Bool) (m t : Metadata)
    (hm : m.isSymlink = true) (ht : t.isSymlink = false) :
    (Cha.new p ph (some t) m =
      (Cha.new_nofollow p ph t).map fun c =>
        { c with kind := c.kind ||| (ChaKind.LINK ||| ChaKind.empty) }) ∧
    ∀ c, Cha.new p ph (some t) m = some c →
      c.is_link = true ∧ c.is_orphan = false ∧
      c.len = t.len ∧ c.atime = t.accessed ∧ c.btime = t.created ∧ c.mtime = t.modified ∧
      (Cha.fromMetadata p t).map Cha.ctime = some c.ctime := by
  have heq : Cha.new p ph (some t) m =
      (Cha.new_nofollow p ph t).map fun c =>
        { c with kind := c.kind ||| (ChaKind.LINK ||| ChaKind.empty) } := by
    simp [Cha.new, hm, ht]
  refine ⟨heq, fun c hc => ?_⟩
  rw [heq, Option.map_eq_some'] at hc
  obtain ⟨c0, hc0, rfl⟩ := hc
  obtain ⟨hl, ha, hb, hmt, hct, -⟩ := new_nofollow_fields p ph t c0 hc0
  have ht3 := new_nofollow_kind_testBit_three p ph t c0 hc0
  refine ⟨?_, ?_, hl, ha, hb, hmt, hct⟩
  · show ChaKind.contains (c0.kind ||| (ChaKind.LINK ||| ChaKind.empty)) ChaKind.LINK = true
    have h4 : ChaKind.LINK = 2 ^ 2 := rfl
    rw [h4, contains_lor]
    have hbit : ChaKind.contains ((2 : Nat) ^ 2 ||| ChaKind.empty) (2 ^ 2) = true := by decide
    rw [hbit, Bool.or_true]
  · show ChaKind.contains (c0.kind ||| (ChaKind.LINK ||| ChaKind.empty)) ChaKind.ORPHAN = false
    have h8 : ChaKind.ORPHAN = 2 ^ 3 := rfl
    rw [h8, contains_lor, contains_pow, ht3]
    decide

/-- Sample metadata describing a regular (non-symlink, non-directory) file,
used as a symlink target. -/
def mdFile : Metadata :=
⟨false, false, 100, some 11, some 12, some 13, 14, 15, 33188, 1, 1000, 1000, 1, 0⟩

/-- The record following construction produces from `mdLink` when the target
fetch returns `mdFile`. -/
def cLive : Cha :=
⟨ChaKind.LINK, 100, some 11, some 12, some 14000000015, some 13, 33188, 1, 1000, 1000, 1⟩

/-- Claim C3 witness: a concrete live symlink yields `LINK` without `ORPHAN`
and the target's size and timestamps. -/
theorem new_live_symlink_witness :
    cLive.is_link = true ∧ cLive.is_orphan = false ∧
    cLive.len = mdFile.len ∧ cLive.atime = mdFile.accessed ∧ cLive.btime = mdFile.created ∧
    cLive.mtime = mdFile.modified ∧
    (Cha.fromMetadata Platform.posix mdFile).map Cha.ctime = some cLive.ctime :=
  (new_live_symlink Platform.posix false mdLink mdFile rfl rfl).2 cLive (by decide)

/-- A file-type probe reporting a directory. -/
def ftDir : FileType := ⟨true, false, false, false, false, false⟩

/-- Claim C4 counterexample: on POSIX, `From<FileType>` of a directory probe
yields a record with `DUMMY` set whose `mode` field is the nonzero
synthesized constant `S_IFDIR`, so a dummy record's `mode` is not always
the zero value. -/
theorem filetype_mode_nonzero :
    ChaKind.contains (Cha.fromFileType Platform.posix ftDir).kind ChaKind.DUMMY = true ∧
    (Cha.fromFileType Platform.posix ftDir).mode ≠ 0 := by
  decide

/-- Claim C4 (amended): a record produced by `dummy()` or `From<FileType>`
has `DUMMY` set and its size and all timestamps at the zero/absent value;
its `mode` is zero on the windows platform, and on POSIX holds only a
synthesized raw file-type constant (possibly zero, never permission
bits). -/
theorem dummy_or_filetype_fields (p : Platform) (t : FileType) :
    (Cha.dummy.is_dummy = true ∧ Cha.dummy.len = 0 ∧ Cha.dummy.atime = none ∧
      Cha.dummy.btime = none ∧ Cha.dummy.ctime = none ∧ Cha.dummy.mtime = none ∧
      Cha.dummy.mode = 0) ∧
    ((Cha.fromFileType p t).is_dummy = true ∧ (Cha.fromFileType p t).len = 0 ∧
      (Cha.fromFileType p t).atime = none ∧ (Cha.fromFileType p t).btime = none ∧
      (Cha.fromFileType p t).ctime = none ∧ (Cha.fromFileType p t).mtime = none ∧
      ((Cha.fromFileType p t).mode = 0 ∨ (Cha.fromFileType p t).mode = S_IFDIR ∨
        (Cha.fromFileType p t).mode = S_IFLNK ∨ (Cha.fromFileType p t).mode = S_IFBLK ∨
        (Cha.fromFileType p t).mode = S_IFCHR ∨ (Cha.fromFileType p t).mode = S_IFIFO ∨
        (Cha.fromFileType p t).mode = S_IFSOCK) ∧
      (p = Platform.windows → (Cha.fromFileType p t).mode = 0)) := by
  rcases t with ⟨d, s, b, ch, f, so⟩
  cases p <;> cases d <;> cases s <;> cases b <;> cases ch <;> cases f <;> cases so <;> decide

/-- Claim C4 witness: on windows the synthesized `mode` of a file-type-probe
record is zero. -/
theorem dummy_or_filetype_fields_witness :
    (Cha.fromFileType Platform.windows ftDir).mode = 0 :=
  (dummy_or_filetype_fields Platform.windows ftDir).2.2.2.2.2.2.2.2 rfl

/-- Sample metadata whose raw `ctime` fields make `Duration::new` panic:
seconds `-1` reinterprets as `u64::MAX` and the nanosecond value `10^9`
produces a carry of one second. -/
def mdOverflow : Metadata := ⟨false, false, 0, none, none, none, -1, 1000000000, 0, 0, 0, 0, 0, 0⟩

/-- Claim C5 counterexample: at `mdOverflow` the POSIX construction faults —
`Duration::new`'s carry addition overflows `u64` and panics (modelled as
`none`) — instead of yielding a record with an absent `ctime`. -/
theorem ctime_fault : Cha.fromMetadata Platform.posix mdOverflow = none := by
  decide

/-- Claim C5 (amended): on POSIX, whenever the truncated nanoseconds field is
a valid sub-second count (below `10^9`, as the platform guarantees),
construction never faults, and `ctime` is the checked epoch addition of
the raw seconds/nanoseconds: present exactly when the seconds value,
reinterpreted as `u64`, fits the representable `i64` seconds range, and
absent otherwise. -/
theorem ctime_checked (m : Metadata) (hn : u32Cast m.ctimeNsec < nanosPerSec) :
    ∃ c, Cha.fromMetadata Platform.posix m = some c ∧
      c.ctime = (if u64Cast m.ctime ≤ i64Max then
        some ((u64Cast m.ctime : Int) * (nanosPerSec : Int) + (u32Cast m.ctimeNsec : Int))
      else none) := by
  have hdiv : u32Cast m.ctimeNsec / nanosPerSec = 0 := Nat.div_eq_of_lt hn
  have hmod : u32Cast m.ctimeNsec % nanosPerSec = u32Cast m.ctimeNsec := Nat.mod_eq_of_lt hn
  have hsec : u64Cast m.ctime < 2 ^ 64 := by
    unfold u64Cast
    have h1 : 0 ≤ m.ctime % (2 : Int) ^ 64 := Int.emod_nonneg _ (by norm_num)
    have h2 : m.ctime % (2 : Int) ^ 64 < (2 : Int) ^ 64 := Int.emod_lt_of_pos _ (by norm_num)
    omega
  have hdur : Duration.new (u64Cast m.ctime) (u32Cast m.ctimeNsec) =
      some ⟨u64Cast m.ctime, u32Cast m.ctimeNsec⟩ := by
    unfold Duration.new
    rw [hdiv, hmod, Nat.add_zero, if_pos hsec]
  refine ⟨{ kind := metaKind m, len := m.len, atime := m.accessed, btime := m.created,
            ctime := epochCheckedAdd ⟨u64Cast m.ctime, u32Cast m.ctimeNsec⟩,
            mtime := m.modified, mode := m.mode, dev := m.dev, uid := m.uid,
            gid := m.gid, nlink := m.nlink }, ?_, ?_⟩
  · simp only [Cha.fromMetadata, hdur, Option.map_some']
  · show epochCheckedAdd ⟨u64Cast m.ctime, u32Cast m.ctimeNsec⟩ = _
    unfold epochCheckedAdd
    rfl

/-- Claim C5 witness: at `mdLink` the nanosecond field is valid and `ctime`
comes out as the epoch addition. -/
theorem ctime_checked_witness :
    u32Cast mdLink.ctimeNsec < nanosPerSec ∧
    ∃ c, Cha.fromMetadata Platform.posix mdLink = some c ∧
      c.ctime = (if u64Cast mdLink.ctime ≤ i64Max then
        some ((u64Cast mdLink.ctime : Int) * (nanosPerSec : Int) +
          (u32Cast mdLink.ctimeNsec : Int))
      else none) :=
  ⟨by decide, ctime_checked mdLink (by decide)⟩

end YaziFs
